import Mathlib

/-!
# ValidateStruct (main.go): reflection-driven record validation

A shallow embedding of `ValidateStruct` from `main.go`, together with the parts of the Go
standard library it calls (`reflect.StructTag.Get`, `reflect.Value.String/Len`, `strconv.Atoi`).

* A Go `string` is a Lean `String`; `len`/`Value.Len` is the UTF-8 byte length.
* A Go `int` is a Lean `Int`; the code only compares record values with parsed bounds, so no
  arithmetic can overflow. `strconv.Atoi` clamps to the 64-bit range as the library does.
* An `error` built by `fmt.Errorf` is a value of `ValidationError`, one constructor per format
  string of the source, carrying the arguments passed to the format; `ValidationError.Error`
  is its message, with the verbs of package fmt filled in.
-/

namespace GoHttprouter

/-! ## strconv.Atoi -/

namespace strconv

/-- The two error causes of package strconv. -/
inductive Err
  | ErrSyntax
  | ErrRange
  deriving DecidableEq, Repr

/-- A failed conversion: the input string and the cause (Func is always "Atoi"). -/
structure NumError where
  Num : String
  Err : Err
  deriving DecidableEq, Repr

/-- Largest uint64, the `maxVal` of `ParseUint(s, 10, 64)`. -/
def maxUint64 : Nat := 2 ^ 64 - 1

/-- The digit loop of `ParseUint(s, 10, 64)`: `n` is the value accumulated so far. A byte that is
not a decimal digit is a syntax error (value 0); an overflow is a range error (value `maxVal`),
returned as soon as it is met. -/
def parseUintLoop : List Char → Nat → Nat × Option Err
  | [], n => (n, none)
  | c :: cs, n =>
    if 48 ≤ c.toNat ∧ c.toNat ≤ 57 then
      if n ≥ maxUint64 / 10 + 1 then (maxUint64, some Err.ErrRange)
      else if n * 10 + (c.toNat - 48) > maxUint64 then (maxUint64, some Err.ErrRange)
      else parseUintLoop cs (n * 10 + (c.toNat - 48))
    else (0, some Err.ErrSyntax)

/-- Go `ParseUint(s, 10, 64)` on the characters of `s`: the empty string is a syntax error. -/
def ParseUint (s : List Char) : Nat × Option Err :=
  match s with
  | [] => (0, some Err.ErrSyntax)
  | _ => parseUintLoop s 0

/-- Go `ParseInt(s, 10, 0)` with a 64-bit `int`: optional sign, then `ParseUint`; a magnitude
outside the int64 range is a range error with the value clamped to the nearest bound. -/
def ParseInt (s : List Char) : Int × Option Err :=
  match s with
  | [] => (0, some Err.ErrSyntax)
  | c :: cs =>
    let neg : Bool := c = '-'
    let digits : List Char := if c = '+' ∨ c = '-' then cs else s
    match ParseUint digits with
    | (_, some Err.ErrSyntax) => (0, some Err.ErrSyntax)
    | (un, _) =>
      if neg = false ∧ un ≥ 2 ^ 63 then ((2 : Int) ^ 63 - 1, some Err.ErrRange)
      else if neg = true ∧ un > 2 ^ 63 then (-(2 : Int) ^ 63, some Err.ErrRange)
      else (if neg then -(un : Int) else (un : Int), none)

/-- Go `strconv.Atoi(s)`: the parsed value and the error, `none` for a nil error. The fast path of
the library for short inputs computes the same pair as `ParseInt(s, 10, 0)`. -/
def Atoi (s : String) : Int × Option NumError :=
  match ParseInt s.data with
  | (n, none) => (n, none)
  | (n, some e) => (n, some ⟨s, e⟩)

end strconv

/-! ## reflect -/

/-- The struct tag of a field as its conventional `key:"value"` pairs, in order. -/
structure StructTag where
  pairs : List (String × String)
  deriving DecidableEq, Repr

/-- Go `StructTag.Get(key)`: the value of the first pair with that key, `""` if there is none. -/
def StructTag.Get (tag : StructTag) (key : String) : String :=
  match tag.pairs.find? (fun p => decide (p.1 = key)) with
  | some p => p.2
  | none => ""

/-- Whether the tag carries an annotation for `key` at all (Go `StructTag.Lookup`, second
result). -/
def StructTag.declares (tag : StructTag) (key : String) : Bool :=
  (tag.pairs.find? (fun p => decide (p.1 = key))).isSome

/-- Go `reflect.StructField`, restricted to what `ValidateStruct` reads. -/
structure StructField where
  Name : String
  Tag : StructTag
  deriving DecidableEq, Repr

/-- Go `reflect.Kind`, with every kind other than `String` and `Int` collapsed into `Other`. -/
inductive Kind
  | String
  | Int
  | Other
  deriving DecidableEq, Repr

/-- Go `reflect.Value` of a struct field: a string, an `int`, or a value of any other type,
of which only the type name is kept. -/
inductive Value
  | str (s : String)
  | int (n : Int)
  | other (typ : String)
  deriving DecidableEq, Repr

/-- Go `Value.Kind()`. -/
def Value.Kind : Value → Kind
  | .str _ => Kind.String
  | .int _ => Kind.Int
  | .other _ => Kind.Other

/-- Go `Value.String()`: the string itself for a string, `"<T Value>"` for any other type. -/
def Value.String : Value → String
  | .str s => s
  | .int _ => "<int Value>"
  | .other typ => "<" ++ typ ++ " Value>"

/-- The condition `value.Kind() == reflect.Int && value.Int() <= 0` (`Value.Int` is only called
on a value of kind `Int`, where it is the integer itself). -/
def Value.isIntLeZero : Value → Bool
  | .int n => decide (n ≤ 0)
  | _ => false

/-- Go `len(s)`: the number of bytes of the UTF-8 encoding of `s`. -/
def byteLen (s : String) : Nat :=
  (s.data.map (fun c =>
    if c.toNat < 128 then 1 else if c.toNat < 2048 then 2 else if c.toNat < 65536 then 3 else 4)).sum

/-! ## main.go -/

/-- The errors `ValidateStruct` builds with `fmt.Errorf`, one constructor per format string:
* `expectedStruct T`: `"expected struct, got %T"`;
* `required F`: `"%s is required"`;
* `invalidMinMax F err`: `"invalid min/max value for %s: %v"`;
* `tooShort F min`: `"%s must be at least %s characters long"`;
* `tooLong F max`: `"%s must be at most %s characters long"`;
* `belowMinimum F min`: `"%s must be at least %d"`;
* `aboveMaximum F max`: `"%s must be at most %d"`. -/
inductive ValidationError
  | expectedStruct (typ : String)
  | required (name : String)
  | invalidMinMax (name : String) (err : strconv.NumError)
  | tooShort (name : String) (min : Int)
  | tooLong (name : String) (max : Int)
  | belowMinimum (name : String) (min : Int)
  | aboveMaximum (name : String) (max : Int)
  deriving DecidableEq, Repr

/-- The argument of `ValidateStruct`: a struct value, given by the fields of its type in
declaration order each with its value, or a value of a non-struct type `typ`. -/
inductive Input
  | struct (fields : List (StructField × Value))
  | nonStruct (typ : String)
  deriving DecidableEq, Repr

/-- The body of the loop of `ValidateStruct` (lines 55-88) for one field: `none` when the loop
goes on to the next field, `some e` when it returns the error `e`. -/
def validateField (field : StructField) (value : Value) : Option ValidationError :=
  if field.Tag.Get "required" = "true" ∧
      (value.String = "" ∨ value.isIntLeZero = true) then
    some (.required field.Name)
  else
    let min := (strconv.Atoi (field.Tag.Get "min")).1
    match (strconv.Atoi (field.Tag.Get "max")) with
    | (_, some err) => some (.invalidMinMax field.Name err)
    | (max, none) =>
      if min > 0 ∨ max > 0 then
        match value with
        | .str s =>
          if (byteLen s : Int) < min then some (.tooShort field.Name min)
          else if (byteLen s : Int) > max then some (.tooLong field.Name max)
          else none
        | .int n =>
          if n < min then some (.belowMinimum field.Name min)
          else if n > max then some (.aboveMaximum field.Name max)
          else none
        | .other _ => none
      else none

/-- The loop of `ValidateStruct` (lines 54-91) over the fields not yet visited. -/
def validateFields : List (StructField × Value) → Option ValidationError
  | [] => none
  | (field, value) :: rest =>
    match validateField field value with
    | some e => some e
    | none => validateFields rest

/-- Go `ValidateStruct(s)`: `none` is the nil error. -/
def ValidateStruct : Input → Option ValidationError
  | .nonStruct typ => some (.expectedStruct typ)
  | .struct fields => validateFields fields

/-- Shorthand for a field with the three constraint tags written out, as in
`required:"r" min:"lo" max:"hi"`. -/
def taggedField (name r lo hi : String) : StructField :=
  ⟨name, ⟨[("required", r), ("min", lo), ("max", hi)]⟩⟩

/-! ## Vocabulary of the specification -/

/-- The required check of a field fails: the condition of line 58. -/
def failsRequired (field : StructField) (value : Value) : Prop :=
  field.Tag.Get "required" = "true" ∧ (value.String = "" ∨ value.isIntLeZero = true)

instance (field : StructField) (value : Value) : Decidable (failsRequired field value) := by
  unfold failsRequired
  infer_instance

/-- The bound a field declares under `key`: `none` when the annotation is absent or is not a
valid integer. -/
def declaredBound (field : StructField) (key : String) : Option Int :=
  if field.Tag.declares key then
    match strconv.Atoi (field.Tag.Get key) with
    | (m, none) => some m
    | (_, some _) => none
  else none

/-- A field satisfies its constraint set in the words of the specification: not empty (string)
or not `<= 0` (int) when required, length or value `>= min` when min is declared, length or
value `<= max` when max is declared. Only string and int fields are admitted. -/
def satisfiesConstraints (field : StructField) (value : Value) : Bool :=
  match value with
  | .str s =>
    (!decide (field.Tag.Get "required" = "true") || decide (s ≠ "")) &&
    (match declaredBound field "min" with
      | some m => decide (m ≤ (byteLen s : Int))
      | none => true) &&
    (match declaredBound field "max" with
      | some m => decide ((byteLen s : Int) ≤ m)
      | none => true)
  | .int n =>
    (!decide (field.Tag.Get "required" = "true") || decide (0 < n)) &&
    (match declaredBound field "min" with
      | some m => decide (m ≤ n)
      | none => true) &&
    (match declaredBound field "max" with
      | some m => decide (n ≤ m)
      | none => true)
  | .other _ => false

/-- A `NewProductResponse` of `main.go`: its fields carry no required, min or max annotation. -/
def untaggedRecord : List (StructField × Value) :=
  [(⟨"Name", ⟨[("json", "name")]⟩⟩, .str "Laptop"),
   (⟨"Price", ⟨[("json", "price")]⟩⟩, .int 1500)]

/-- A string field that declares only a min: `min:"3"`, holding "abcd". -/
def minOnlyRecord : List (StructField × Value) :=
  [(⟨"Name", ⟨[("min", "3")]⟩⟩, .str "abcd")]

/-- A non-required int field that declares only a max: `max:"10"`, holding -5. -/
def maxOnlyRecord : List (StructField × Value) :=
  [(⟨"Delta", ⟨[("max", "10")]⟩⟩, .int (-5))]

/-- A `User`-like record whose `Name` is empty and whose `Age` carries bounds that are not
integers. -/
def malformedAgeEmptyName : List (StructField × Value) :=
  [(taggedField "Name" "true" "3" "10", .str ""), (taggedField "Age" "true" "x" "y", .int 30)]

/-- The same schema with a passing `Name`. -/
def malformedAgeGoodName : List (StructField × Value) :=
  [(taggedField "Name" "true" "3" "10", .str "Alice"), (taggedField "Age" "true" "x" "y", .int 30)]

/-- The struct `User` of `main.go` (lines 14-19) holding the given values. -/
def User (Name : String) (Age : Int) (Email Password : String) : Input :=
  .struct
    [(⟨"Name", ⟨[("json", "name"), ("required", "true"), ("min", "3"), ("max", "10")]⟩⟩,
        .str Name),
     (⟨"Age", ⟨[("json", "age"), ("required", "true"), ("min", "25"), ("max", "50")]⟩⟩,
        .int Age),
     (⟨"Email", ⟨[("json", "email"), ("required", "true"), ("min", "10"), ("max", "100")]⟩⟩,
        .str Email),
     (⟨"Password", ⟨[("json", "password"), ("required", "true"), ("min", "3"), ("max", "10")]⟩⟩,
        .str Password)]

/-- The struct `Product` of `main.go` (lines 21-25) holding the given values. -/
def Product (Name : String) (Price Stock : Int) : Input :=
  .struct
    [(⟨"Name", ⟨[("json", "name"), ("required", "true"), ("min", "3"), ("max", "10")]⟩⟩,
        .str Name),
     (⟨"Price",
        ⟨[("json", "price"), ("required", "true"), ("min", "1000000"), ("max", "100000000")]⟩⟩,
        .int Price),
     (⟨"Stock", ⟨[("json", "stock"), ("required", "true"), ("min", "1"), ("max", "100")]⟩⟩,
        .int Stock)]

/-- Package fmt, verb `%d` on an `int`: the decimal numeral, with a leading `-` when negative. -/
def fmtD (n : Int) : String :=
  toString n

/-- Package fmt, verb `%s` on an `int`: `%s` is not a verb for integers, so fmt prints the
bad-verb form `%!s(int=N)` with `N` in decimal. -/
def fmtSInt (n : Int) : String :=
  "%!s(int=" ++ toString n ++ ")"

/-- The text of `NumError.Error()`: `strconv.Atoi: parsing "<Num>": <cause>`. The quoting of
`Num` is done by `strconv.Quote`, which is taken as the parameter `Quote`. -/
def strconv.NumError.Error (Quote : String → String) (e : strconv.NumError) : String :=
  "strconv.Atoi: parsing " ++ Quote e.Num ++ ": " ++
    (match e.Err with
      | .ErrSyntax => "invalid syntax"
      | .ErrRange => "value out of range")

/-- The message `err.Error()` of an error returned by `ValidateStruct`: the format string of
its `fmt.Errorf` call with the verbs filled in (`%s` on a string is the string, `%T` is the
type name, `%v` on an error is its message). -/
def ValidationError.Error (Quote : String → String) : ValidationError → String
  | .expectedStruct typ => "expected struct, got " ++ typ
  | .required name => name ++ " is required"
  | .invalidMinMax name err => "invalid min/max value for " ++ name ++ ": " ++ err.Error Quote
  | .tooShort name min => name ++ " must be at least " ++ fmtSInt min ++ " characters long"
  | .tooLong name max => name ++ " must be at most " ++ fmtSInt max ++ " characters long"
  | .belowMinimum name min => name ++ " must be at least " ++ fmtD min
  | .aboveMaximum name max => name ++ " must be at most " ++ fmtD max

/-! ## Auxiliary lemmas -/

theorem atoi_empty : strconv.Atoi "" = (0, some ⟨"", strconv.Err.ErrSyntax⟩) := by decide

theorem get_of_not_declares (tag : StructTag) (key : String) (h : tag.declares key = false) :
    tag.Get key = "" := by
  unfold StructTag.declares at h
  unfold StructTag.Get
  cases hf : tag.pairs.find? (fun p => decide (p.1 = key)) with
  | none => rfl
  | some p => simp [hf] at h

theorem value_String_int (n : Int) : (Value.int n).String ≠ "" := by
  simp [Value.String]

theorem value_String_other (typ : String) : (Value.other typ).String ≠ "" := by
  intro h
  have h2 := congrArg String.length h
  simp only [Value.String, String.length_append] at h2
  have h3 : "<".length = 1 := by decide
  have h4 : "".length = 0 := by decide
  omega

/-- The loop skips a prefix of fields that all pass. -/
theorem validateFields_append (pre rest : List (StructField × Value))
    (hpre : ∀ p ∈ pre, validateField p.1 p.2 = none) :
    validateFields (pre ++ rest) = validateFields rest := by
  induction pre with
  | nil => rfl
  | cons p pre ih =>
    obtain ⟨f, v⟩ := p
    have hp : validateField f v = none := hpre (f, v) (List.mem_cons_self _ _)
    have hrest : ∀ q ∈ pre, validateField q.1 q.2 = none :=
      fun q hq => hpre q (List.mem_cons_of_mem _ hq)
    simp [validateFields, hp, ih hrest]

/-- The loop returns the error of the first field that fails. -/
theorem validateFields_first (pre post : List (StructField × Value)) (field : StructField)
    (value : Value) (e : ValidationError)
    (hpre : ∀ p ∈ pre, validateField p.1 p.2 = none)
    (hfail : validateField field value = some e) :
    validateFields (pre ++ (field, value) :: post) = some e := by
  rw [validateFields_append pre _ hpre]
  simp [validateFields, hfail]

/-- A field whose required check fails returns the Required error. -/
theorem validateField_required (field : StructField) (value : Value)
    (h : failsRequired field value) :
    validateField field value = some (.required field.Name) := by
  unfold failsRequired at h
  unfold validateField
  rw [if_pos h]

/-- A field that passes the required check and whose max does not parse returns the fault. -/
theorem validateField_max_error (field : StructField) (value : Value) (m : Int)
    (err : strconv.NumError)
    (hreq : ¬ failsRequired field value)
    (hmax : strconv.Atoi (field.Tag.Get "max") = (m, some err)) :
    validateField field value = some (.invalidMinMax field.Name err) := by
  unfold failsRequired at hreq
  unfold validateField
  rw [if_neg hreq]
  simp only [hmax]

/-- A field that passes the required check and whose max parses: the bound check alone. -/
theorem validateField_bounds (field : StructField) (value : Value) (hi : Int)
    (hreq : ¬ failsRequired field value)
    (hmax : strconv.Atoi (field.Tag.Get "max") = (hi, none)) :
    validateField field value =
      if (strconv.Atoi (field.Tag.Get "min")).1 > 0 ∨ hi > 0 then
        match value with
        | .str s =>
          if (byteLen s : Int) < (strconv.Atoi (field.Tag.Get "min")).1 then
            some (.tooShort field.Name (strconv.Atoi (field.Tag.Get "min")).1)
          else if (byteLen s : Int) > hi then some (.tooLong field.Name hi)
          else none
        | .int n =>
          if n < (strconv.Atoi (field.Tag.Get "min")).1 then
            some (.belowMinimum field.Name (strconv.Atoi (field.Tag.Get "min")).1)
          else if n > hi then some (.aboveMaximum field.Name hi)
          else none
        | .other _ => none
      else none := by
  unfold failsRequired at hreq
  unfold validateField
  rw [if_neg hreq]
  simp only [hmax]

theorem declaredBound_some (field : StructField) (key : String) (m : Int)
    (h : declaredBound field key = some m) :
    strconv.Atoi (field.Tag.Get key) = (m, none) := by
  unfold declaredBound at h
  split at h
  · split at h
    · next m' heq => simp at h; rw [heq, h]
    · simp at h
  · simp at h

/-- A string or int field with both bounds parsed that satisfies its constraint set passes. -/
theorem validateField_of_satisfies (field : StructField) (value : Value) (lo hi : Int)
    (hlo : declaredBound field "min" = some lo) (hhi : declaredBound field "max" = some hi)
    (hsat : satisfiesConstraints field value = true) :
    validateField field value = none := by
  have hmin := declaredBound_some field "min" lo hlo
  have hmax := declaredBound_some field "max" hi hhi
  cases value with
  | str s =>
    simp only [satisfiesConstraints, hlo, hhi, Bool.and_eq_true, Bool.or_eq_true,
      Bool.not_eq_true', decide_eq_true_eq, decide_eq_false_iff_not] at hsat
    obtain ⟨⟨hr, h1⟩, h2⟩ := hsat
    have hreq : ¬ failsRequired field (.str s) := by
      rintro ⟨hreq, hs | hs⟩
      · rcases hr with hr | hr
        · exact hr hreq
        · exact hr hs
      · simp [Value.isIntLeZero] at hs
    rw [validateField_bounds field _ hi hreq hmax, hmin]
    simp only
    split
    · rw [if_neg (by omega), if_neg (by omega)]
    · rfl
  | int n =>
    simp only [satisfiesConstraints, hlo, hhi, Bool.and_eq_true, Bool.or_eq_true,
      Bool.not_eq_true', decide_eq_true_eq, decide_eq_false_iff_not] at hsat
    obtain ⟨⟨hr, h1⟩, h2⟩ := hsat
    have hreq : ¬ failsRequired field (.int n) := by
      rintro ⟨hreq, hs | hs⟩
      · exact value_String_int n hs
      · rcases hr with hr | hr
        · exact hr hreq
        · simp [Value.isIntLeZero] at hs
          omega
    rw [validateField_bounds field _ hi hreq hmax, hmin]
    simp only
    split
    · rw [if_neg (by omega), if_neg (by omega)]
    · rfl
  | other typ => simp [satisfiesConstraints] at hsat

/-- A field of a kind other than string and int passes as soon as its max parses. -/
theorem validateField_other (field : StructField) (typ : String) (hi : Int)
    (hmax : strconv.Atoi (field.Tag.Get "max") = (hi, none)) :
    validateField field (.other typ) = none := by
  have hreq : ¬ failsRequired field (.other typ) := by
    rintro ⟨_, hs | hs⟩
    · exact value_String_other typ hs
    · simp [Value.isIntLeZero] at hs
  rw [validateField_bounds field _ hi hreq hmax]
  simp only
  split <;> rfl

/-- The loop returns nil exactly when the first field passes and the rest does. -/
theorem validateFields_cons_none (field : StructField) (value : Value)
    (rest : List (StructField × Value)) :
    validateFields ((field, value) :: rest) = none ↔
      validateField field value = none ∧ validateFields rest = none := by
  have hstep : validateFields ((field, value) :: rest) =
      match validateField field value with
      | some e => some e
      | none => validateFields rest := rfl
  rw [hstep]
  cases validateField field value with
  | none => simp
  | some e => simp

theorem byteLen_eq_zero (s : String) : byteLen s = 0 ↔ s = "" := by
  obtain ⟨l⟩ := s
  cases l with
  | nil => simp [byteLen]
  | cons c cs =>
    constructor
    · intro h
      simp only [byteLen, List.map_cons, List.sum_cons] at h
      split at h
      · omega
      · split at h
        · omega
        · split at h <;> omega
    · intro h
      have h2 := congrArg String.data h
      simp at h2

/-- A required string field with bounds `0 < lo`, `hi`: it passes exactly when the byte length
of the value lies in `[lo, hi]`. -/
theorem validateField_str_none_iff (field : StructField) (lo hi : Int) (s : String)
    (hlo : strconv.Atoi (field.Tag.Get "min") = (lo, none))
    (hhi : strconv.Atoi (field.Tag.Get "max") = (hi, none))
    (hpos : 0 < lo) :
    validateField field (.str s) = none ↔ lo ≤ (byteLen s : Int) ∧ (byteLen s : Int) ≤ hi := by
  by_cases hreq : failsRequired field (.str s)
  · rw [validateField_required field _ hreq]
    have hs : s = "" := by
      rcases hreq.2 with h | h
      · exact h
      · simp [Value.isIntLeZero] at h
    have h0 : byteLen s = 0 := (byteLen_eq_zero s).mpr hs
    constructor
    · intro h; simp at h
    · intro h; omega
  · rw [validateField_bounds field _ hi hreq hhi, hlo]
    simp only
    rw [if_pos (Or.inl hpos)]
    split
    · constructor
      · intro h; simp at h
      · intro h; omega
    · split
      · constructor
        · intro h; simp at h
        · intro h; omega
      · constructor
        · intro _; omega
        · intro _; rfl

/-- An int field with bounds `0 < lo`, `hi`: it passes exactly when the value lies in
`[lo, hi]`. -/
theorem validateField_int_none_iff (field : StructField) (lo hi n : Int)
    (hlo : strconv.Atoi (field.Tag.Get "min") = (lo, none))
    (hhi : strconv.Atoi (field.Tag.Get "max") = (hi, none))
    (hpos : 0 < lo) :
    validateField field (.int n) = none ↔ lo ≤ n ∧ n ≤ hi := by
  by_cases hreq : failsRequired field (.int n)
  · rw [validateField_required field _ hreq]
    have hn : n ≤ 0 := by
      rcases hreq.2 with h | h
      · exact absurd h (value_String_int n)
      · simpa [Value.isIntLeZero] using h
    constructor
    · intro h; simp at h
    · intro h; omega
  · rw [validateField_bounds field _ hi hreq hhi, hlo]
    simp only
    rw [if_pos (Or.inl hpos)]
    split
    · constructor
      · intro h; simp at h
      · intro h; omega
    · split
      · constructor
        · intro h; simp at h
        · intro h; omega
      · constructor
        · intro _; omega
        · intro _; rfl

/-! ## C1: records that satisfy every constraint are valid -/

/-- C1 as stated fails: every field of a record without min/max annotations satisfies its
(empty) constraint set, yet `ValidateStruct` returns the min/max fault for the first field,
not nil. -/
theorem valid_when_satisfied_counterexample :
    untaggedRecord.all (fun p => satisfiesConstraints p.1 p.2) = true ∧
    ValidateStruct (.struct untaggedRecord) =
      some (.invalidMinMax "Name" ⟨"", strconv.Err.ErrSyntax⟩) := by
  decide

/-- C1 (amended): for every flat record of string and int fields in which every field declares
both a min and a max that parse as integers, if each field satisfies its constraint set (not
empty / not `<= 0` when required, length or value `>= min`, length or value `<= max`), then
`ValidateStruct` returns nil. -/
theorem valid_when_satisfied (fields : List (StructField × Value))
    (hdecl : ∀ p ∈ fields,
      (declaredBound p.1 "min").isSome = true ∧ (declaredBound p.1 "max").isSome = true)
    (hsat : ∀ p ∈ fields, satisfiesConstraints p.1 p.2 = true) :
    ValidateStruct (.struct fields) = none := by
  have hall : ∀ p ∈ fields, validateField p.1 p.2 = none := by
    intro p hp
    obtain ⟨h1, h2⟩ := hdecl p hp
    obtain ⟨lo, hlo⟩ := Option.isSome_iff_exists.mp h1
    obtain ⟨hi, hhi⟩ := Option.isSome_iff_exists.mp h2
    exact validateField_of_satisfies p.1 p.2 lo hi hlo hhi (hsat p hp)
  have h := validateFields_append fields [] hall
  simpa [ValidateStruct, validateFields] using h

/-- C1 witness: a single int field `Age` with required, min=25, max=50 and value 30. -/
theorem valid_when_satisfied_witness :
    ValidateStruct (.struct [(taggedField "Age" "true" "25" "50", .int 30)]) = none :=
  valid_when_satisfied [(taggedField "Age" "true" "25" "50", .int 30)]
    (by decide) (by decide)

/-! ## C2: the required check -/

/-- C2: when all earlier fields pass, a field tagged `required:"true"` that holds the empty
string (string field) or a value `<= 0` (int field) makes `ValidateStruct` return the Required
failure naming that field, whatever its min and max: the required check runs before the bound
check of the same field. -/
theorem required_reported_first (pre post : List (StructField × Value)) (field : StructField)
    (value : Value)
    (hpre : ∀ p ∈ pre, validateField p.1 p.2 = none)
    (hreq : field.Tag.Get "required" = "true")
    (hempty : value = .str "" ∨ ∃ n : Int, n ≤ 0 ∧ value = .int n) :
    ValidateStruct (.struct (pre ++ (field, value) :: post)) = some (.required field.Name) := by
  have hfail : failsRequired field value := by
    refine ⟨hreq, ?_⟩
    rcases hempty with h | ⟨n, hn, h⟩
    · left; rw [h]; rfl
    · right; rw [h]; simp [Value.isIntLeZero, hn]
  exact validateFields_first pre post field value _ hpre (validateField_required field value hfail)

/-- C2 witness: after a passing `Name`, a required int `Age` of 0 with min=25 is reported as
Required, not as BelowMinimum. -/
theorem required_reported_first_witness :
    ValidateStruct (.struct ([(taggedField "Name" "true" "3" "10", .str "Alice")] ++
      (taggedField "Age" "true" "25" "50", .int 0) ::
      [(taggedField "Email" "true" "10" "100", .str "")])) = some (.required "Age") :=
  required_reported_first [(taggedField "Name" "true" "3" "10", .str "Alice")]
    [(taggedField "Email" "true" "10" "100", .str "")]
    (taggedField "Age" "true" "25" "50") (.int 0)
    (by decide) (by decide) (Or.inr ⟨0, by decide, rfl⟩)

/-! ## C3: declaration order, first failure only -/

/-- C3: if a field fails its checks with error `e` and every field declared before it passes
all of its checks, `ValidateStruct` returns exactly `e`, and the result is the same whatever
the fields declared after it (`post` and `post2` are arbitrary). -/
theorem first_failure_only (pre post post2 : List (StructField × Value)) (field : StructField)
    (value : Value) (e : ValidationError)
    (hpre : ∀ p ∈ pre, validateField p.1 p.2 = none)
    (hfail : validateField field value = some e) :
    ValidateStruct (.struct (pre ++ (field, value) :: post)) = some e ∧
    ValidateStruct (.struct (pre ++ (field, value) :: post2)) =
      ValidateStruct (.struct (pre ++ (field, value) :: post)) := by
  have h1 := validateFields_first pre post field value e hpre hfail
  have h2 := validateFields_first pre post2 field value e hpre hfail
  exact ⟨h1, h2.trans h1.symm⟩

/-- C3 witness: `Age` is the first failing field of a `User`; the later `Email` and `Password`
also fail but are not reported. -/
theorem first_failure_only_witness :
    ValidateStruct (.struct ([(taggedField "Name" "true" "3" "10", .str "Alice")] ++
      (taggedField "Age" "true" "25" "50", .int 20) ::
      [(taggedField "Email" "true" "10" "100", .str ""),
       (taggedField "Password" "true" "3" "10", .str "pw")])) =
      some (.belowMinimum "Age" 25) :=
  (first_failure_only [(taggedField "Name" "true" "3" "10", .str "Alice")]
    [(taggedField "Email" "true" "10" "100", .str ""),
     (taggedField "Password" "true" "3" "10", .str "pw")] []
    (taggedField "Age" "true" "25" "50") (.int 20) (.belowMinimum "Age" 25)
    (by decide) (by decide)).1

/-! ## C4: string bounds are inclusive -/

/-- C4: for a string field whose min and max parse with `0 < min <= max` and a value that
passes the required check, a value of length exactly min and one of length exactly max pass
the field, a value of length `min - 1` fails with TooShort and a value of length `max + 1`
fails with TooLong. Length is `Value.Len`, the byte length. -/
theorem string_bounds_inclusive (field : StructField) (lo hi : Int) (s : String)
    (hlo : strconv.Atoi (field.Tag.Get "min") = (lo, none))
    (hhi : strconv.Atoi (field.Tag.Get "max") = (hi, none))
    (hpos : 0 < lo) (hle : lo ≤ hi)
    (hreq : ¬ failsRequired field (.str s)) :
    ((byteLen s : Int) = lo → validateField field (.str s) = none) ∧
    ((byteLen s : Int) = hi → validateField field (.str s) = none) ∧
    ((byteLen s : Int) = lo - 1 → validateField field (.str s) = some (.tooShort field.Name lo)) ∧
    ((byteLen s : Int) = hi + 1 → validateField field (.str s) = some (.tooLong field.Name hi)) := by
  rw [validateField_bounds field _ hi hreq hhi, hlo]
  simp only
  rw [if_pos (Or.inl hpos)]
  refine ⟨fun h => ?_, fun h => ?_, fun h => ?_, fun h => ?_⟩
  · rw [if_neg (by omega), if_neg (by omega)]
  · rw [if_neg (by omega), if_neg (by omega)]
  · rw [if_pos (by omega)]
  · rw [if_neg (by omega), if_pos (by omega)]

/-- C4 witness: `Name` with min=3, max=10 and value "ab" fails with TooShort. -/
theorem string_bounds_inclusive_witness :
    validateField (taggedField "Name" "true" "3" "10") (.str "ab") =
      some (.tooShort "Name" 3) :=
  (string_bounds_inclusive (taggedField "Name" "true" "3" "10") 3 10 "ab"
    (by decide) (by decide) (by decide) (by decide) (by decide)).2.2.1 (by decide)

/-! ## C5: integer bounds are inclusive -/

/-- C5: for an int field whose min and max parse with `0 < min <= max` and a value `n` that
passes the required check, the value min and the value max pass the field, the value `min - 1`
fails with BelowMinimum carrying min and the value `max + 1` fails with AboveMaximum carrying
max; more generally every value below min fails with BelowMinimum. -/
theorem int_bounds_inclusive (field : StructField) (lo hi n : Int)
    (hlo : strconv.Atoi (field.Tag.Get "min") = (lo, none))
    (hhi : strconv.Atoi (field.Tag.Get "max") = (hi, none))
    (hpos : 0 < lo) (hle : lo ≤ hi)
    (hreq : ¬ failsRequired field (.int n)) :
    (n = lo → validateField field (.int n) = none) ∧
    (n = hi → validateField field (.int n) = none) ∧
    (n = lo - 1 → validateField field (.int n) = some (.belowMinimum field.Name lo)) ∧
    (n = hi + 1 → validateField field (.int n) = some (.aboveMaximum field.Name hi)) ∧
    (n < lo → validateField field (.int n) = some (.belowMinimum field.Name lo)) := by
  rw [validateField_bounds field _ hi hreq hhi, hlo]
  simp only
  rw [if_pos (Or.inl hpos)]
  refine ⟨fun h => ?_, fun h => ?_, fun h => ?_, fun h => ?_, fun h => ?_⟩
  · rw [if_neg (by omega), if_neg (by omega)]
  · rw [if_neg (by omega), if_neg (by omega)]
  · rw [if_pos (by omega)]
  · rw [if_neg (by omega), if_pos (by omega)]
  · rw [if_pos (by omega)]

/-- C5 witness: `Price` with min=1000000, max=100000000 and value 500 fails with
BelowMinimum. -/
theorem int_bounds_inclusive_witness :
    validateField (taggedField "Price" "true" "1000000" "100000000") (.int 500) =
      some (.belowMinimum "Price" 1000000) :=
  (int_bounds_inclusive (taggedField "Price" "true" "1000000" "100000000") 1000000 100000000 500
    (by decide) (by decide) (by decide) (by decide) (by decide)).2.2.2.2 (by decide)

/-! ## C6: undeclared bounds -/

/-- C6 as stated fails: a string field declaring only `min:"3"` with the value "abcd" (length
4, required check passed) is not Valid but gets the min/max fault; and a non-required int
field declaring only `max:"10"` with the value -5 is rejected as below a minimum of 0. -/
theorem undeclared_bound_counterexample :
    ((⟨[("min", "3")]⟩ : StructTag).declares "max" = false ∧
      ValidateStruct (.struct minOnlyRecord) =
        some (.invalidMinMax "Name" ⟨"", strconv.Err.ErrSyntax⟩)) ∧
    ((⟨[("max", "10")]⟩ : StructTag).declares "min" = false ∧
      ValidateStruct (.struct maxOnlyRecord) = some (.belowMinimum "Delta" 0)) := by
  decide

/-- C6 (amended): an undeclared max is not "no bound". For every field that carries no max
annotation (whether it declares a min or no bound at all) and every record in which all
earlier fields pass and this field passes its required check, `ValidateStruct` returns the
min/max fault for that field, whatever the field's value. -/
theorem undeclared_max_is_fault (pre post : List (StructField × Value)) (field : StructField)
    (value : Value)
    (hpre : ∀ p ∈ pre, validateField p.1 p.2 = none)
    (hmax : field.Tag.declares "max" = false)
    (hreq : ¬ failsRequired field value) :
    ValidateStruct (.struct (pre ++ (field, value) :: post)) =
      some (.invalidMinMax field.Name ⟨"", strconv.Err.ErrSyntax⟩) := by
  have hget := get_of_not_declares field.Tag "max" hmax
  have hatoi : strconv.Atoi (field.Tag.Get "max") = (0, some ⟨"", strconv.Err.ErrSyntax⟩) := by
    rw [hget]; exact atoi_empty
  exact validateFields_first pre post field value _ hpre
    (validateField_max_error field value 0 _ hreq hatoi)

/-- C6 witness: after a passing `Name`, a `Nick` field with only `min:"3"` and value "abcd". -/
theorem undeclared_max_is_fault_witness :
    ValidateStruct (.struct ([(taggedField "Name" "true" "3" "10", .str "Alice")] ++
      ((⟨"Nick", ⟨[("min", "3")]⟩⟩ : StructField), Value.str "abcd") :: [])) =
      some (.invalidMinMax "Nick" ⟨"", strconv.Err.ErrSyntax⟩) :=
  undeclared_max_is_fault [(taggedField "Name" "true" "3" "10", .str "Alice")] []
    ⟨"Nick", ⟨[("min", "3")]⟩⟩ (.str "abcd") (by decide) (by decide) (by decide)

/-! ## C7: a max of 0 next to a positive min -/

/-- C7 (the code at the failing inputs): with `min:"3" max:"0"` the string "abc", of length
min, is rejected as TooLong against the bound 0, and the int 5, above min, is rejected as
AboveMaximum against the bound 0. -/
theorem max_zero_still_checked :
    validateField ⟨"Name", ⟨[("min", "3"), ("max", "0")]⟩⟩ (.str "abc") =
      some (.tooLong "Name" 0) ∧
    validateField ⟨"Stock", ⟨[("min", "3"), ("max", "0")]⟩⟩ (.int 5) =
      some (.aboveMaximum "Stock" 0) := by
  decide

/-! ## C8: neither bound positive -/

/-- C8: if a field's min and max both parse and neither is positive, the bound check is
skipped: every value that does not fail the field's required check passes the field, whatever
its length or numeric value. -/
theorem nonpositive_bounds_skipped (field : StructField) (value : Value) (lo hi : Int)
    (hlo : strconv.Atoi (field.Tag.Get "min") = (lo, none))
    (hhi : strconv.Atoi (field.Tag.Get "max") = (hi, none))
    (hlo0 : lo ≤ 0) (hhi0 : hi ≤ 0)
    (hreq : ¬ failsRequired field value) :
    validateField field value = none := by
  rw [validateField_bounds field value hi hreq hhi, hlo]
  simp only
  rw [if_neg (by omega)]

/-- C8 witness: a non-required int field with min=0, max=0 accepts -7. -/
theorem nonpositive_bounds_skipped_witness :
    validateField ⟨"Delta", ⟨[("min", "0"), ("max", "0")]⟩⟩ (.int (-7)) = none :=
  nonpositive_bounds_skipped ⟨"Delta", ⟨[("min", "0"), ("max", "0")]⟩⟩ (.int (-7)) 0 0
    (by decide) (by decide) (by decide) (by decide) (by decide)

/-! ## C9: an unparseable min -/

/-- C9 (the code at the failing input): a field with `min:"abc" max:"10"` holding "hello"
passes its required check, its min is not a valid integer, and `ValidateStruct` returns
nil. -/
theorem malformed_min_not_reported :
    (strconv.Atoi "abc").2 = some ⟨"abc", strconv.Err.ErrSyntax⟩ ∧
    ValidateStruct (.struct [(taggedField "Name" "true" "abc" "10", .str "hello")]) = none := by
  decide

/-! ## C10: when a malformed bound is reported -/

/-- C10 as stated fails: the schema carries an `Age` field whose min and max are not
integers, yet the record with an empty required `Name` gets the per-record verdict Required
for `Name`; the fault for `Age` appears only for a record whose `Name` passes, so the result
depends on the record's values. -/
theorem malformed_bound_counterexample :
    (strconv.Atoi "y").2 = some ⟨"y", strconv.Err.ErrSyntax⟩ ∧
    ValidateStruct (.struct malformedAgeEmptyName) = some (.required "Name") ∧
    ValidateStruct (.struct malformedAgeGoodName) =
      some (.invalidMinMax "Age" ⟨"y", strconv.Err.ErrSyntax⟩) := by
  decide

/-- C10 (amended): a malformed max is a fault raised while the record is evaluated. If the max
annotation of a field cannot be parsed as an integer, then for every record in which
all earlier fields pass and this field passes its required check, `ValidateStruct` returns the
min/max fault naming that field, whatever the field's value and the later fields. -/
theorem malformed_max_is_fault (pre post : List (StructField × Value)) (field : StructField)
    (value : Value) (m : Int) (err : strconv.NumError)
    (hpre : ∀ p ∈ pre, validateField p.1 p.2 = none)
    (hmax : strconv.Atoi (field.Tag.Get "max") = (m, some err))
    (hreq : ¬ failsRequired field value) :
    ValidateStruct (.struct (pre ++ (field, value) :: post)) =
      some (.invalidMinMax field.Name err) :=
  validateFields_first pre post field value _ hpre
    (validateField_max_error field value m err hreq hmax)

/-- C10 witness: after a passing `Name`, a `Price` field with `max:"1e6"`. -/
theorem malformed_max_is_fault_witness :
    ValidateStruct (.struct ([(taggedField "Name" "true" "3" "10", .str "Alice")] ++
      (taggedField "Price" "true" "1" "1e6", Value.int 500) ::
      [(taggedField "Stock" "true" "1" "100", .int 0)])) =
      some (.invalidMinMax "Price" ⟨"1e6", strconv.Err.ErrSyntax⟩) :=
  malformed_max_is_fault [(taggedField "Name" "true" "3" "10", .str "Alice")]
    [(taggedField "Stock" "true" "1" "100", .int 0)]
    (taggedField "Price" "true" "1" "1e6") (.int 500) 0 ⟨"1e6", strconv.Err.ErrSyntax⟩
    (by decide) (by decide) (by decide)

/-! ## C11: unsupported shapes -/

/-- C11 as stated fails: a struct with a single `bool` field `Active` tagged
`required:"true" min:"1" max:"2"` is neither string nor int, yet `ValidateStruct` returns nil
for it. -/
theorem unsupported_kind_counterexample :
    (Value.other "bool").Kind = Kind.Other ∧
    ValidateStruct (.struct [(taggedField "Active" "true" "1" "2", .other "bool")]) = none := by
  decide

/-- C11 (amended): for every input that is not a struct, `ValidateStruct` returns the
"expected struct" fault and not nil. A struct field whose kind is neither string nor int is
not reported as unsupported: when all earlier fields pass and its max parses, the field is
skipped whatever its value and its required and min annotations, and the result is the one of
the fields declared after it. -/
theorem non_struct_fault_other_kind_skipped (typ ftyp : String)
    (pre post : List (StructField × Value)) (field : StructField) (hi : Int)
    (hpre : ∀ p ∈ pre, validateField p.1 p.2 = none)
    (hmax : strconv.Atoi (field.Tag.Get "max") = (hi, none)) :
    ValidateStruct (.nonStruct typ) = some (.expectedStruct typ) ∧
    ValidateStruct (.nonStruct typ) ≠ none ∧
    ValidateStruct (.struct (pre ++ (field, .other ftyp) :: post)) =
      ValidateStruct (.struct post) := by
  refine ⟨rfl, by simp [ValidateStruct], ?_⟩
  have hother := validateField_other field ftyp hi hmax
  have hall : ∀ p ∈ pre ++ [(field, Value.other ftyp)], validateField p.1 p.2 = none := by
    intro p hp
    rcases List.mem_append.mp hp with h | h
    · exact hpre p h
    · rw [List.mem_singleton.mp h]; exact hother
  have h := validateFields_append (pre ++ [(field, Value.other ftyp)]) post hall
  simpa [ValidateStruct] using h

/-- C11 witness: a `*User` pointer is refused, while an `int64` field `Id` between a passing
`Name` and a failing `Age` is skipped and the failure of `Age` is reported. -/
theorem non_struct_fault_other_kind_skipped_witness :
    ValidateStruct (.nonStruct "*main.User") = some (.expectedStruct "*main.User") ∧
    ValidateStruct (.nonStruct "*main.User") ≠ none ∧
    ValidateStruct (.struct ([(taggedField "Name" "true" "3" "10", .str "Alice")] ++
      (taggedField "Id" "true" "1" "5", Value.other "int64") ::
      [(taggedField "Age" "true" "25" "50", .int 20)])) =
      ValidateStruct (.struct [(taggedField "Age" "true" "25" "50", .int 20)]) :=
  non_struct_fault_other_kind_skipped "*main.User" "int64"
    [(taggedField "Name" "true" "3" "10", .str "Alice")]
    [(taggedField "Age" "true" "25" "50", .int 20)]
    (taggedField "Id" "true" "1" "5") 5 (by decide) (by decide)

/-! ## C12: the length of a string -/

/-- C12 (the code at the failing input): the value "éééééé" has 6 characters, within min=3 and
max=10, but 12 bytes, and `Name` with `min:"3" max:"10"` rejects it as TooLong. -/
theorem string_length_is_bytes :
    "éééééé".length = 6 ∧ byteLen "éééééé" = 12 ∧
    validateField (taggedField "Name" "true" "3" "10") (.str "éééééé") =
      some (.tooLong "Name" 10) := by
  decide

/-! ## C13: the shipped record kinds -/

/-- C13: for every `User`, `ValidateStruct` returns nil iff `3 <= len(Name) <= 10`,
`25 <= Age <= 50`, `10 <= len(Email) <= 100` and `3 <= len(Password) <= 10`; for every
`Product`, nil iff `3 <= len(Name) <= 10`, `1000000 <= Price <= 100000000` and
`1 <= Stock <= 100`, with `len` the byte length. -/
theorem shipped_records_valid_iff :
    (∀ (Name : String) (Age : Int) (Email Password : String),
      ValidateStruct (User Name Age Email Password) = none ↔
        (3 ≤ byteLen Name ∧ byteLen Name ≤ 10) ∧ (25 ≤ Age ∧ Age ≤ 50) ∧
        (10 ≤ byteLen Email ∧ byteLen Email ≤ 100) ∧
        (3 ≤ byteLen Password ∧ byteLen Password ≤ 10)) ∧
    (∀ (Name : String) (Price Stock : Int),
      ValidateStruct (Product Name Price Stock) = none ↔
        (3 ≤ byteLen Name ∧ byteLen Name ≤ 10) ∧ (1000000 ≤ Price ∧ Price ≤ 100000000) ∧
        (1 ≤ Stock ∧ Stock ≤ 100)) := by
  constructor
  · intro Name Age Email Password
    simp only [ValidateStruct, User, validateFields_cons_none]
    rw [validateField_str_none_iff _ 3 10 Name (by decide) (by decide) (by decide),
      validateField_int_none_iff _ 25 50 Age (by decide) (by decide) (by decide),
      validateField_str_none_iff _ 10 100 Email (by decide) (by decide) (by decide),
      validateField_str_none_iff _ 3 10 Password (by decide) (by decide) (by decide)]
    simp only [validateFields, and_true]
    constructor <;> intro h <;> omega
  · intro Name Price Stock
    simp only [ValidateStruct, Product, validateFields_cons_none]
    rw [validateField_str_none_iff _ 3 10 Name (by decide) (by decide) (by decide),
      validateField_int_none_iff _ 1000000 100000000 Price (by decide) (by decide) (by decide),
      validateField_int_none_iff _ 1 100 Stock (by decide) (by decide) (by decide)]
    simp only [validateFields, and_true]
    constructor <;> intro h <;> omega

/-! ## C14: the text of the bound-violation messages -/

/-- C14 (the code at the failing input): for a `User` whose `Name` is "ab" the message is
`Name must be at least %!s(int=3) characters long`, not `Name must be at least 3 characters
long`, and for a `Name` of 11 bytes it is `Name must be at most %!s(int=10) characters long`;
the int message of `Age` does render its bound in decimal. -/
theorem string_bound_message_bad_verb (Quote : String → String) :
    (ValidateStruct (User "ab" 30 "alice@example.com" "secret")).map
        (ValidationError.Error Quote) =
      some "Name must be at least %!s(int=3) characters long" ∧
    (ValidateStruct (User "ab" 30 "alice@example.com" "secret")).map
        (ValidationError.Error Quote) ≠
      some "Name must be at least 3 characters long" ∧
    (ValidateStruct (User "abcdefghijk" 30 "alice@example.com" "secret")).map
        (ValidationError.Error Quote) =
      some "Name must be at most %!s(int=10) characters long" ∧
    (ValidateStruct (User "Alice" 20 "alice@example.com" "secret")).map
        (ValidationError.Error Quote) =
      some "Age must be at least 25" := by
  have h1 : ValidateStruct (User "ab" 30 "alice@example.com" "secret") =
      some (.tooShort "Name" 3) := by decide
  have h2 : ValidateStruct (User "abcdefghijk" 30 "alice@example.com" "secret") =
      some (.tooLong "Name" 10) := by decide
  have h3 : ValidateStruct (User "Alice" 20 "alice@example.com" "secret") =
      some (.belowMinimum "Age" 25) := by decide
  rw [h1, h2, h3]
  simp only [Option.map_some', ValidationError.Error]
  decide

/-! ## C15: optional fields left empty -/

/-- C15: for a field that is not tagged `required:"true"`, whose max parses and whose min is
positive, and a record in which all earlier fields pass, an empty string value fails with
TooShort and every int value below min (0 included) fails with BelowMinimum. -/
theorem optional_field_still_bound_checked (pre post : List (StructField × Value))
    (field : StructField) (lo hi : Int)
    (hpre : ∀ p ∈ pre, validateField p.1 p.2 = none)
    (hopt : field.Tag.Get "required" ≠ "true")
    (hlo : strconv.Atoi (field.Tag.Get "min") = (lo, none))
    (hhi : strconv.Atoi (field.Tag.Get "max") = (hi, none))
    (hpos : 0 < lo) :
    ValidateStruct (.struct (pre ++ (field, .str "") :: post)) =
      some (.tooShort field.Name lo) ∧
    (∀ n : Int, n < lo →
      ValidateStruct (.struct (pre ++ (field, .int n) :: post)) =
        some (.belowMinimum field.Name lo)) ∧
    ValidateStruct (.struct (pre ++ (field, .int 0) :: post)) =
      some (.belowMinimum field.Name lo) := by
  have hreq : ∀ v : Value, ¬ failsRequired field v := fun v h => hopt h.1
  have hstr : validateField field (.str "") = some (.tooShort field.Name lo) := by
    rw [validateField_bounds field _ hi (hreq _) hhi, hlo]
    simp only
    rw [if_pos (Or.inl hpos)]
    have h0 : byteLen "" = 0 := by decide
    rw [if_pos (by omega)]
  have hint : ∀ n : Int, n < lo →
      validateField field (.int n) = some (.belowMinimum field.Name lo) := by
    intro n hn
    rw [validateField_bounds field _ hi (hreq _) hhi, hlo]
    simp only
    rw [if_pos (Or.inl hpos), if_pos hn]
  exact ⟨validateFields_first pre post field _ _ hpre hstr,
    fun n hn => validateFields_first pre post field _ _ hpre (hint n hn),
    validateFields_first pre post field _ _ hpre (hint 0 hpos)⟩

/-- C15 witness: after a passing `Name`, an optional `Nick` with `min:"3" max:"10"` left
empty fails with TooShort. -/
theorem optional_field_still_bound_checked_witness :
    ValidateStruct (.struct ([(taggedField "Name" "true" "3" "10", .str "Alice")] ++
      (taggedField "Nick" "false" "3" "10", Value.str "") :: [])) =
      some (.tooShort "Nick" 3) :=
  (optional_field_still_bound_checked [(taggedField "Name" "true" "3" "10", .str "Alice")] []
    (taggedField "Nick" "false" "3" "10") 3 10
    (by decide) (by decide) (by decide) (by decide) (by decide)).1

end GoHttprouter
